import Mathlib

/-!
# Shallow embedding of the tako-copilotkit research-agent workflow engine

This file embeds the workflow core of the repository and proves the spec's
claims about it.  The embedded modules are:

* `src/agents/src/state.ts` — the `TakoResearchStateAnnotation` channel
  reducers (`messagesReducer`, …, `logsReducer`) and the state record
  `TakoResearchState`;
* `src/agents/src/agent.ts` — the routing function `shouldSearch` and the
  two-node graph loop (`graphStep`, `runGraph`);
* `src/agents/src/chat.ts` — the assistant node `chat_node` and its
  tool-call processing loop (`chatToolStep`);
* `src/agents/typescript/src/state.ts` — the `AgentState` record used by the
  retrieval node;
* `src/agents/typescript/src/search.ts` — the retrieval node `search_node`:
  query derivation (`deriveQueries`), the per-question fan-out loop
  (`searchLoop`), Tako chart processing with the dependent render fetch
  (`processTakoResult`, `processTakoResults`) and the web-resource
  extraction merge (`addWebResources`).

External collaborators (the OpenAI model, the Tavily web search, the Tako
MCP search / chart-render tools) are passed in as function parameters, with
`Except String` results standing for promises that may reject.  JavaScript
truthiness on strings (`x || d` falls through on the empty string) is
modelled by `jsOr`.
-/

namespace Tako

/-- Argument items of the `ExtractResources` tool
(`ResourceInput` in `src/agents/typescript/src/search.ts`). -/
structure ResourceInput where
  url : String
  title : String
  description : String
deriving DecidableEq, Repr

/-- Arguments of a model tool call.  The TypeScript code reads the argument
object untyped (`toolCall.args.research_question`, `...args.queries`, …);
the embedding carries all argument fields the code ever reads, with the
zod-schema defaults for fields a given call does not use. -/
structure ToolArgs where
  research_question : String := ""
  data_questions : List String := []
  report : String := ""
  queries : List String := []
  resources : List ResourceInput := []
deriving DecidableEq, Repr

/-- A structured tool call attached to a model message
(`tool_calls` entries on a LangChain `AIMessage`). -/
structure ToolCall where
  name : String
  args : ToolArgs := {}
  id : Option String := none
deriving DecidableEq, Repr

/-- A conversation message (`BaseMessage` with its optional `tool_calls`
array; `name`/`tool_call_id` are the extra fields of `ToolMessage`). -/
structure Message where
  role : String
  content : String
  tool_calls : List ToolCall := []
  name : Option String := none
  tool_call_id : Option String := none
deriving DecidableEq, Repr

/-- A resource entry of the `agents/src` state
(`TakoResource` in `src/agents/src/state.ts`). -/
structure TakoResource where
  card_id : String
  title : String
  description : String
  source : String
  url : String
  iframe_html : Option String := none
deriving DecidableEq, Repr

/-- The shared research state of `src/agents/src/state.ts`
(`TakoResearchStateAnnotation.State`). -/
structure TakoResearchState where
  messages : List Message := []
  research_question : String := ""
  data_questions : List String := []
  report : String := ""
  resources : List TakoResource := []
  logs : List String := []
deriving DecidableEq, Repr

/-- A partial state update returned by a node (`Partial<TakoResearchState>`):
a field that is `none` is absent from the update and leaves its channel
untouched. -/
structure StateDelta where
  messages : Option (List Message) := none
  research_question : Option String := none
  data_questions : Option (List String) := none
  report : Option String := none
  resources : Option (List TakoResource) := none
  logs : Option (List String) := none
deriving DecidableEq, Repr

/-! ## The reducer registry of `src/agents/src/state.ts`

Each channel's reducer is applied as `reducer(current, update)` whenever a
node's update mentions the channel; an absent field (`none`) leaves the
channel untouched.  The source's `x ?? []` / `x ?? ""` fallbacks guard the
uninitialized channel, which the embedding represents by the state record's
initialized defaults, so `x` is always present here. -/

/-- `messages` reducer: `(x, y) => x.concat(y)`. -/
def messagesReducer (x : List Message) (y : Option (List Message)) : List Message :=
  match y with
  | some ys => x ++ ys
  | none => x

/-- `research_question` reducer: `(x, y) => y ?? x ?? ""`. -/
def researchQuestionReducer (x : String) (y : Option String) : String :=
  y.getD x

/-- `data_questions` reducer: `(x, y) => y ?? x ?? []`. -/
def dataQuestionsReducer (x : List String) (y : Option (List String)) : List String :=
  y.getD x

/-- `report` reducer: `(x, y) => y ?? x ?? ""`. -/
def reportReducer (x : String) (y : Option String) : String :=
  y.getD x

/-- `resources` reducer: `(x, y) => y ?? x ?? []` — last-writer-wins
replacement, not an append. -/
def resourcesReducer (x : List TakoResource) (y : Option (List TakoResource)) : List TakoResource :=
  y.getD x

/-- `logs` reducer: `if (!y) return x ?? []; return [...(x ?? []), ...y]`. -/
def logsReducer (x : List String) (y : Option (List String)) : List String :=
  match y with
  | some ys => x ++ ys
  | none => x

/-- Application of the reducer registry: for each field present in the
delta, combine with the existing value; absent fields are untouched. -/
def applyDelta (state : TakoResearchState) (delta : StateDelta) : TakoResearchState where
  messages := messagesReducer state.messages delta.messages
  research_question := researchQuestionReducer state.research_question delta.research_question
  data_questions := dataQuestionsReducer state.data_questions delta.data_questions
  report := reportReducer state.report delta.report
  resources := resourcesReducer state.resources delta.resources
  logs := logsReducer state.logs delta.logs

/-- A delta that mentions only the `resources` channel. -/
def resourcesDelta (r : Option (List TakoResource)) : StateDelta :=
  { resources := r }

/-! ## The routing function of `src/agents/src/agent.ts` -/

/-- `shouldSearch` from `src/agents/src/agent.ts`: looks at the last
message; if it carries tool calls, one of them is named
`GenerateDataQuestions`, and `state.data_questions` is non-empty, route to
`"search"`, otherwise to `"end"`. -/
def shouldSearch (state : TakoResearchState) : String :=
  match state.messages.getLast? with
  | none => "end"
  | some lastMessage =>
    if lastMessage.tool_calls.length > 0 then
      let hasGenerateQuestions :=
        lastMessage.tool_calls.any (fun tc => tc.name == "GenerateDataQuestions")
      if hasGenerateQuestions && decide (state.data_questions.length > 0) then
        "search"
      else
        "end"
    else
      "end"

/-! ## The assistant node of `src/agents/src/chat.ts`

`chat_node` invokes the model (`modelWithTools.invoke`) with no try/catch:
a rejected model call rejects the node itself.  On success it builds a
partial update: the response message is appended, and each tool call in the
response is processed in order.  Note the source re-creates `newLogs` on
every loop iteration and assigns `updates.logs = newLogs`, so each
log-producing tool call overwrites the previous one's log entry in the
update. -/

/-- One iteration of the `for (const toolCall of response.tool_calls)` loop
in `chat_node` (`src/agents/src/chat.ts`, lines 97–118). -/
def chatToolStep (updates : StateDelta) (toolCall : ToolCall) : StateDelta :=
  let newLogs : List String := []
  let (updates, newLogs) :=
    if toolCall.name == "WriteResearchQuestion" then
      let q := toolCall.args.research_question
      ({ updates with research_question := some q },
        newLogs ++ [s!"Research question set: {q}"])
    else if toolCall.name == "GenerateDataQuestions" then
      let n := toolCall.args.data_questions.length
      ({ updates with data_questions := some toolCall.args.data_questions },
        newLogs ++ [s!"Generated {n} data questions"])
    else if toolCall.name == "WriteReport" then
      ({ updates with report := some toolCall.args.report },
        newLogs ++ ["Report draft created"])
    else
      (updates, newLogs)
  if newLogs.length > 0 then
    { updates with logs := some newLogs }
  else
    updates

/-- The update built by `chat_node` from a successful model response:
`{ messages: [response] }` plus the tool-call loop. -/
def chatUpdates (response : Message) : StateDelta :=
  let updates : StateDelta := { messages := some [response] }
  if response.tool_calls.length > 0 then
    response.tool_calls.foldl chatToolStep updates
  else
    updates

/-- `chat_node` from `src/agents/src/chat.ts`, with the model call passed
in as a fallible function (`Except.error` models a rejected promise; the
source has no try/catch around the `invoke`). -/
def chat_node (invokeModel : TakoResearchState → Except String Message)
    (state : TakoResearchState) : Except String StateDelta := do
  let response ← invokeModel state
  pure (chatUpdates response)

/-! ## The graph of `src/agents/src/agent.ts`

`workflow = new StateGraph(TakoResearchStateAnnotation)` with nodes
`chat` and `search`, edge `__start__ → chat`, conditional edges
`chat → {search, __end__}` decided by `shouldSearch` on the post-merge
state, and the unconditional edge `search → chat`.  The node bodies are
parameters (`GraphConfig`), so theorems can quantify over assistant and
retrieval behaviours; node updates are merged through the reducer registry
before routing. -/

/-- A position in the compiled graph: at the `chat` node, at the `search`
node, or at `__end__`. -/
inductive GraphNode where
  | chat
  | search
  | finished
deriving DecidableEq, Repr

/-- The conditional-edge mapping `{ search: "search", end: "__end__" }`
applied to the router's answer. -/
def routeTarget (state : TakoResearchState) : GraphNode :=
  if shouldSearch state = "search" then GraphNode.search else GraphNode.finished

/-- The (pure) update each graph node contributes, as a function of the
current state.  Instantiated with `chat_node` / `search_node` behaviours in
the theorems. -/
structure GraphConfig where
  chatDelta : TakoResearchState → StateDelta
  searchDelta : TakoResearchState → StateDelta

/-- One superstep of the compiled graph: run the current node, merge its
update through the reducer registry, then follow the node's edge
(`chat` routes via `shouldSearch` on the merged state; `search` returns
unconditionally to `chat`). -/
def graphStep (cfg : GraphConfig) :
    GraphNode × TakoResearchState → GraphNode × TakoResearchState
  | (GraphNode.chat, s) =>
    let merged := applyDelta s (cfg.chatDelta s)
    (routeTarget merged, merged)
  | (GraphNode.search, s) => (GraphNode.chat, applyDelta s (cfg.searchDelta s))
  | (GraphNode.finished, s) => (GraphNode.finished, s)

/-- `n` supersteps of the graph from the entry edge `__start__ → chat`. -/
def runGraph (cfg : GraphConfig) (s0 : TakoResearchState) :
    Nat → GraphNode × TakoResearchState
  | 0 => (GraphNode.chat, s0)
  | n + 1 => graphStep cfg (runGraph cfg s0 n)

/-! ## The retrieval node of `src/agents/typescript/src/search.ts` -/

/-- JavaScript `x || dflt` on an optional string: `undefined`, `null` and
the empty string are falsy and fall through to the default. -/
def jsOr (x : Option String) (dflt : String) : String :=
  match x with
  | some s => if s == "" then dflt else s
  | none => dflt

/-- A progress-log entry of the `agents/typescript` state
(`LogAnnotation` in `src/agents/typescript/src/state.ts`). -/
structure LogEntry where
  message : String
  done : Bool
deriving DecidableEq, Repr

/-- One result item of the Tako knowledge search
(`result` in the `takoResult.results` loop of `search_node`). -/
structure TakoSearchResult where
  url : String
  title : Option String := none
  description : Option String := none
  card_id : Option String := none
deriving DecidableEq, Repr

/-- A non-null response of the Tako knowledge-search tool
(an object with a `results` array). -/
structure TakoSearchResponse where
  results : List TakoSearchResult
deriving DecidableEq, Repr

/-- A Tavily web-search response; `search_node` treats it as opaque (it is
only stringified into the extraction model's prompt). -/
structure WebSearchResponse where
  raw : String
deriving DecidableEq, Repr

/-- A resource entry of the `agents/typescript` state
(`ResourceAnnotation` in `src/agents/typescript/src/state.ts`).  `content`
is optional because the web-resource push spreads a `ResourceInput`, which
has no `content` field. -/
structure Resource where
  url : String
  title : String
  description : String
  content : Option String := none
  resource_type : String
  card_id : Option String := none
  iframe_html : Option String := none
  source : String
deriving DecidableEq, Repr

/-- The `agents/typescript` agent state
(`AgentStateAnnotation.State` in `src/agents/typescript/src/state.ts`). -/
structure AgentState where
  messages : List Message := []
  model : String := ""
  research_question : String := ""
  report : String := ""
  resources : List Resource := []
  logs : List LogEntry := []
  data_questions : List String := []
deriving DecidableEq, Repr

/-- The external collaborators of `search_node`, passed as functions.
`Except.error` models a rejected promise.  The `webLat`/`takoLat` fields
model the settlement latency of each concurrent provider call:
JavaScript's `Promise.all` delivers values positionally regardless of
settlement order, so only the joint completion time (the `max` of the two
latencies) depends on them.  An absent Tako search tool
(`takoSearchTool` null) is the `takoSearch` that always returns
`Except.ok none`; an absent chart tool is the `render` that always returns
`Except.ok none`.  `dateNow` models `Date.now()` for the fallback tool-call
id. -/
structure SearchProviders where
  webSearch : String → Except String WebSearchResponse
  webLat : String → Nat
  takoSearch : String → Except String (Option TakoSearchResponse)
  takoLat : String → Nat
  render : String → Except String (Option String)
  extractModel : List WebSearchResponse → List TakoSearchResponse → Except String Message
  dateNow : Nat

/-- Query derivation of `search_node` (lines 51–57): the first tool call of
the last message, when named `Search`, supplies the queries; otherwise a
non-empty `state.data_questions` is the fallback; otherwise no queries. -/
def deriveQueries (aiMessage : Message) (dataQuestions : List String) : List String :=
  match aiMessage.tool_calls.head? with
  | some tc =>
    if tc.name == "Search" then tc.args.queries
    else if dataQuestions.length > 0 then dataQuestions
    else []
  | none =>
    if dataQuestions.length > 0 then dataQuestions
    else []

/-- `logs[i]["done"] = true`: flip the `i`-th entry's `done` flag in place
(out-of-range indices leave the list unchanged). -/
def markDone (logs : List LogEntry) (i : Nat) : List LogEntry :=
  match logs.get? i with
  | some entry => logs.set i { entry with done := true }
  | none => logs

/-- The per-question fan-out loop of `search_node` (lines 81–107).  Each
iteration awaits `Promise.all([tavilyClient.search(query), takoSearchTool
.invoke(...)])`: both calls of the pair run concurrently, the pair settles
after the slower of the two, and values are delivered positionally.  There
is no try/catch, so a rejection of either call rejects the whole node; when
both calls of a pair would reject, the model reports the web search's error
(the claims under study only exercise single failures).  On success the
responses are accumulated in question order and the question's log entry is
marked done.  The final component is the elapsed settlement time. -/
def searchLoop (p : SearchProviders) :
    List String → Nat → List WebSearchResponse → List TakoSearchResponse →
    List LogEntry → Nat →
    Except String (List WebSearchResponse × List TakoSearchResponse × List LogEntry × Nat)
  | [], _, search_results, tako_results, logs, elapsed =>
    Except.ok (search_results, tako_results, logs, elapsed)
  | query :: rest, i, search_results, tako_results, logs, elapsed => do
    let tavilyResponse ← p.webSearch query
    let takoResponse ← p.takoSearch query
    let tako_results :=
      match takoResponse with
      | some r => tako_results ++ [r]
      | none => tako_results
    searchLoop p rest (i + 1) (search_results ++ [tavilyResponse]) tako_results
      (markDone logs i) (elapsed + max (p.webLat query) (p.takoLat query))

/-- The dependent chart-render fetch of `search_node` (lines 122–133):
called only when the chart tool is available and `result.card_id` is
truthy; the try/catch swallows a rejection, leaving the fragment empty, and
`iframeResult?.iframe_html || ""` degrades a null/empty response to `""`. -/
def takoChartIframe (render : String → Except String (Option String))
    (result : TakoSearchResult) : String :=
  match result.card_id with
  | some card_id =>
    if card_id == "" then ""
    else
      match render card_id with
      | Except.ok iframeResult => jsOr iframeResult ""
      | Except.error _ => ""
  | none => ""

/-- The resource object pushed for a Tako chart result (lines 135–145). -/
def takoChartResource (render : String → Except String (Option String))
    (result : TakoSearchResult) : Resource where
  url := result.url
  title := jsOr result.title "Tako Chart"
  description := jsOr result.description ""
  content := some (jsOr result.description "")
  resource_type := "tako_chart"
  card_id := result.card_id
  iframe_html := some (takoChartIframe render result)
  source := "Tako"

/-- One iteration of the chart-result loop (lines 114–147): skip a result
whose url is already known, otherwise fetch its render fragment and append
the chart resource, recording its url. -/
def processTakoResult (render : String → Except String (Option String))
    (acc : List Resource × List String) (result : TakoSearchResult) :
    List Resource × List String :=
  let (resources, existingUrls) := acc
  if existingUrls.contains result.url then
    (resources, existingUrls)
  else
    (resources ++ [takoChartResource render result], existingUrls ++ [result.url])

/-- The full chart-processing phase (lines 110–149): responses are
processed in the order collected (question order), each response's results
in provider order. -/
def processTakoResults (render : String → Except String (Option String))
    (resources : List Resource) (existingUrls : List String)
    (tako_results : List TakoSearchResponse) : List Resource × List String :=
  tako_results.foldl
    (fun acc takoResult => takoResult.results.foldl (processTakoResult render) acc)
    (resources, existingUrls)

/-- The web-resource merge (lines 209–220): each extracted resource is
appended with `resource_type: "web"` unless its url is already known. -/
def addWebResources (resources : List Resource) (existingUrls : List String)
    (newResources : List ResourceInput) : List Resource × List String :=
  newResources.foldl
    (fun acc resource =>
      let (resources, existingUrls) := acc
      if existingUrls.contains resource.url then
        (resources, existingUrls)
      else
        (resources ++ [{ url := resource.url, title := resource.title,
                         description := resource.description,
                         resource_type := "web",
                         source := "Tavily Web Search" : Resource }],
         existingUrls ++ [resource.url]))
    (resources, existingUrls)

/-- The update returned by `search_node` (lines 222–234). -/
structure SearchDelta where
  messages : List Message
  resources : List Resource
  logs : List LogEntry
deriving DecidableEq, Repr

/-- `search_node` from `src/agents/typescript/src/search.ts`.  Reading the
last message of an empty conversation would throw a `TypeError` in the
source (`messages[length - 1]` is `undefined`), modelled as an error.
Phases: derive queries; push a `Search for <query>` log entry per query;
run the fan-out loop; process chart results (dedup against the urls of the
prior resources, render fetch per chart); reset `logs` to `[]`; invoke the
extraction model (no try/catch — a rejection rejects the node, and a
response without tool calls would throw on `tool_calls![0]`); merge the
extracted web resources; return the delta. -/
def search_node (p : SearchProviders) (state : AgentState) :
    Except String SearchDelta :=
  match state.messages.getLast? with
  | none => Except.error "TypeError: aiMessage is undefined"
  | some aiMessage => do
    let resources := state.resources
    let logs := state.logs
    let queries := deriveQueries aiMessage state.data_questions
    let logs := logs ++
      queries.map (fun query => { message := s!"Search for {query}", done := false : LogEntry })
    let (search_results, tako_results, _logs, _elapsed) ←
      searchLoop p queries 0 [] [] logs 0
    let existingUrls := resources.map (fun r => r.url)
    let (resources, existingUrls) :=
      processTakoResults p.render resources existingUrls tako_results
    let fallbackId := "search_" ++ toString p.dateNow
    let toolCallId :=
      match aiMessage.tool_calls.head? with
      | some tc => jsOr tc.id fallbackId
      | none => fallbackId
    let searchResultsToolMessage : Message :=
      { role := "tool", content := "Performed search.",
        name := some "Search", tool_call_id := some toolCallId }
    let aiMessageResponse ← p.extractModel search_results tako_results
    match aiMessageResponse.tool_calls.head? with
    | none => Except.error "TypeError: aiMessageResponse.tool_calls is empty"
    | some extractCall =>
      let newResources := extractCall.args.resources
      let (resources, _) := addWebResources resources existingUrls newResources
      Except.ok
        { messages := [searchResultsToolMessage, aiMessageResponse,
            { role := "tool", content := "Resources added.",
              name := some "ExtractResources",
              tool_call_id := some (extractCall.id.getD "") }]
          resources := resources
          logs := [] }

/-! ## Routing lemmas -/

/-- The routing function continues to retrieval exactly when the last
message carries a `GenerateDataQuestions` tool call and the merged
`data_questions` list is non-empty.  Shared characterisation used by the
routing and termination results. -/
theorem shouldSearch_eq_search_iff (state : TakoResearchState) :
    shouldSearch state = "search" ↔
      (∃ m, state.messages.getLast? = some m ∧
        ∃ tc ∈ m.tool_calls, tc.name = "GenerateDataQuestions") ∧
      state.data_questions ≠ [] := by
  unfold shouldSearch
  cases h : state.messages.getLast? with
  | none => simp
  | some m =>
    dsimp only
    by_cases hlen : m.tool_calls.length > 0
    · rw [if_pos hlen]
      by_cases hcond : (m.tool_calls.any (fun tc => tc.name == "GenerateDataQuestions")
          && decide (state.data_questions.length > 0)) = true
      · rw [if_pos hcond]
        simp only [Bool.and_eq_true, List.any_eq_true, beq_iff_eq,
          decide_eq_true_eq] at hcond
        obtain ⟨⟨tc, htc, hname⟩, hdq⟩ := hcond
        constructor
        · intro _
          exact ⟨⟨m, rfl, tc, htc, hname⟩, List.ne_nil_of_length_pos hdq⟩
        · intro _
          rfl
      · rw [if_neg hcond]
        simp only [Bool.and_eq_true, List.any_eq_true, beq_iff_eq,
          decide_eq_true_eq, not_and] at hcond
        constructor
        · intro hfalse
          exact absurd hfalse (by decide)
        · rintro ⟨⟨m', hm', tc, htc, hname⟩, hdq⟩
          obtain rfl : m = m' := Option.some.inj hm'
          exact absurd (List.length_pos_of_ne_nil hdq) (hcond ⟨tc, htc, hname⟩)
    · rw [if_neg hlen]
      constructor
      · intro hfalse
        exact absurd hfalse (by decide)
      · rintro ⟨⟨m', hm', tc, htc, _⟩, _⟩
        obtain rfl : m = m' := Option.some.inj hm'
        exact absurd (List.length_pos_of_mem htc) hlen

/-- The routing function only ever answers `"search"` or `"end"`. -/
theorem shouldSearch_eq_search_or_end (state : TakoResearchState) :
    shouldSearch state = "search" ∨ shouldSearch state = "end" := by
  unfold shouldSearch
  cases state.messages.getLast? with
  | none => exact Or.inr rfl
  | some m =>
    dsimp only
    by_cases hlen : m.tool_calls.length > 0
    · rw [if_pos hlen]
      split
      · exact Or.inl rfl
      · exact Or.inr rfl
    · rw [if_neg hlen]
      exact Or.inr rfl

/-- C1: for every state, `shouldSearch` returns `"search"`
(continue-to-retrieval) if and only if the last (assistant) message carries
a tool call named `GenerateDataQuestions` and the state's `data_questions`
list is non-empty; in every other case — another tool call, no tool call,
or an empty `data_questions` — it returns `"end"` (halt). -/
theorem router_continue_iff_generate_data_questions (state : TakoResearchState) :
    (shouldSearch state = "search" ↔
      (∃ m, state.messages.getLast? = some m ∧
        ∃ tc ∈ m.tool_calls, tc.name = "GenerateDataQuestions") ∧
      state.data_questions ≠ []) ∧
    (shouldSearch state ≠ "search" → shouldSearch state = "end") := by
  refine ⟨shouldSearch_eq_search_iff state, fun hne => ?_⟩
  rcases shouldSearch_eq_search_or_end state with h | h
  · exact absurd h hne
  · exact h

/-! ## Reducer-registry results -/

/-- C3: applying the same `resources` delta twice through the reducer
registry yields exactly the same state as applying it once, for all states
and all deltas (including the absent delta) — the `resources` reducer is a
replacement, which is idempotent. -/
theorem resources_delta_idempotent (s : TakoResearchState)
    (r : Option (List TakoResource)) :
    applyDelta (applyDelta s (resourcesDelta r)) (resourcesDelta r) =
      applyDelta s (resourcesDelta r) := by
  cases r <;> rfl

/-- A chart resource with identity key `https://tako/a`. -/
def resA : TakoResource :=
  { card_id := "c1", title := "A", description := "", source := "Tako",
    url := "https://tako/a" }

/-- A chart resource with identity key `https://tako/b`. -/
def resB : TakoResource :=
  { card_id := "c2", title := "B", description := "", source := "Tako",
    url := "https://tako/b" }

/-- C2 counterexample: the `resources` reducer of
`src/agents/src/state.ts` does not append-dedup — a delta replaces the
prior list outright, so merging `[resB]` into a state holding `[resA]`
(distinct identity keys) loses `resA`: the union of the prior value and
the new items is not preserved by the merge. -/
theorem resources_reducer_replaces_cex :
    resourcesReducer [resA] (some [resB]) = [resB] ∧
      resA ∉ resourcesReducer [resA] (some [resB]) ∧
      (applyDelta { resources := [resA] } (resourcesDelta (some [resB]))).resources
        = [resB] := by
  refine ⟨rfl, ?_, rfl⟩
  decide

/-! ## Assistant-node results -/

/-- A model call that rejects, as a timeout or API error would. -/
def failingChatModel : TakoResearchState → Except String Message :=
  fun _ => Except.error "model call timed out"

/-- C7 counterexample: when the model call inside `chat_node` fails, the
node does not return a delta with an appended error message and log entry —
the rejection propagates out of `chat_node` unchanged (there is no
try/catch in the source). -/
theorem chat_node_error_propagates_cex :
    chat_node failingChatModel {} = Except.error "model call timed out" := rfl

/-- C7 (amended): `chat_node` performs the model call without any error
handling: whenever the model invocation fails, the error propagates out of
the assistant node as the node's own result, and no delta (no synthetic
assistant message, no log entry) is produced. -/
theorem chat_node_error_propagates (invokeModel : TakoResearchState → Except String Message)
    (state : TakoResearchState) (e : String)
    (h : invokeModel state = Except.error e) :
    chat_node invokeModel state = Except.error e := by
  unfold chat_node
  rw [h]
  rfl

/-- Witness for `chat_node_error_propagates` at a concrete failing model. -/
theorem chat_node_error_propagates_witness :
    chat_node failingChatModel {} = Except.error "model call timed out" :=
  chat_node_error_propagates failingChatModel {} "model call timed out" rfl

/-- An assistant turn carrying two tool calls, returned in this order by
the model: first `WriteResearchQuestion`, then `WriteReport`. -/
def twoToolResponse : Message :=
  { role := "assistant", content := "",
    tool_calls :=
      [{ name := "WriteResearchQuestion",
         args := { research_question := "Compare X vs Y" } },
       { name := "WriteReport", args := { report := "Report body" } }] }

/-- C8: evaluation of `chat_node` at an assistant turn with two tool calls.
Each tool call lands its state-field update, but the source re-creates
`newLogs` on every loop iteration and assigns `updates.logs = newLogs`, so
the earlier tool call's log entry (`Research question set: Compare X vs Y`)
is overwritten by the later one's: the returned delta's `logs` holds only
`Report draft created`. -/
theorem chat_node_overwrites_earlier_tool_log :
    chat_node (fun _ => Except.ok twoToolResponse) {} =
      Except.ok { messages := some [twoToolResponse],
                  research_question := some "Compare X vs Y",
                  report := some "Report body",
                  logs := some ["Report draft created"] } ∧
    "Research question set: Compare X vs Y" ∉ ["Report draft created"] := by
  constructor
  · rfl
  · decide

/-! ## Dedup invariants of the retrieval node -/

/-- Relation between accumulator states of the dedup-append folds in
`search_node`: the resource list grows only at the tail (first-write-wins —
existing entries are untouched), the url accumulator keeps mirroring the
resource urls, and distinctness of the accumulated urls is preserved. -/
def DedupExtends (a b : List Resource × List String) : Prop :=
  (∃ t, b.1 = a.1 ++ t) ∧
  (a.2 = a.1.map (fun r => r.url) → b.2 = b.1.map (fun r => r.url)) ∧
  (a.2.Nodup → b.2.Nodup)

theorem dedupExtends_refl (a : List Resource × List String) : DedupExtends a a :=
  ⟨⟨[], (List.append_nil _).symm⟩, id, id⟩

theorem dedupExtends_trans {a b c : List Resource × List String}
    (hab : DedupExtends a b) (hbc : DedupExtends b c) : DedupExtends a c := by
  obtain ⟨⟨t1, ht1⟩, hmap1, hnd1⟩ := hab
  obtain ⟨⟨t2, ht2⟩, hmap2, hnd2⟩ := hbc
  exact ⟨⟨t1 ++ t2, by rw [ht2, ht1, List.append_assoc]⟩,
    fun h => hmap2 (hmap1 h), fun h => hnd2 (hnd1 h)⟩

/-- Appending one resource whose url passed the membership guard preserves
the dedup invariant. -/
theorem dedupExtends_push (acc : List Resource × List String) (item : Resource)
    (h : acc.2.contains item.url = false) :
    DedupExtends acc (acc.1 ++ [item], acc.2 ++ [item.url]) := by
  refine ⟨⟨[item], rfl⟩, fun hmap => ?_, fun hnd => ?_⟩
  · simp [hmap]
  · refine List.Nodup.append hnd (List.nodup_singleton _) ?_
    intro x hx hy
    obtain rfl : x = item.url := List.mem_singleton.mp hy
    exact absurd hx (by simpa using h)

theorem dedupExtends_processTakoResult (render : String → Except String (Option String))
    (acc : List Resource × List String) (result : TakoSearchResult) :
    DedupExtends acc (processTakoResult render acc result) := by
  obtain ⟨resources, existingUrls⟩ := acc
  unfold processTakoResult
  dsimp only
  by_cases hc : existingUrls.contains result.url = true
  · rw [if_pos hc]
    exact dedupExtends_refl _
  · rw [if_neg hc]
    exact dedupExtends_push (resources, existingUrls)
      (takoChartResource render result) (Bool.not_eq_true _ ▸ hc)

/-- Any fold whose every step respects the dedup invariant respects it. -/
theorem dedupExtends_foldl {α : Type}
    (f : List Resource × List String → α → List Resource × List String)
    (hf : ∀ acc x, DedupExtends acc (f acc x)) :
    ∀ (l : List α) (acc : List Resource × List String),
      DedupExtends acc (l.foldl f acc)
  | [], acc => dedupExtends_refl acc
  | x :: xs, acc =>
    dedupExtends_trans (hf acc x) (dedupExtends_foldl f hf xs (f acc x))

theorem dedupExtends_processTakoResults
    (render : String → Except String (Option String))
    (resources : List Resource) (existingUrls : List String)
    (tako_results : List TakoSearchResponse) :
    DedupExtends (resources, existingUrls)
      (processTakoResults render resources existingUrls tako_results) := by
  unfold processTakoResults
  exact dedupExtends_foldl _
    (fun acc tr =>
      dedupExtends_foldl (processTakoResult render)
        (fun acc' r => dedupExtends_processTakoResult render acc' r)
        tr.results acc)
    tako_results (resources, existingUrls)

theorem dedupExtends_addWebResources (resources : List Resource)
    (existingUrls : List String) (newResources : List ResourceInput) :
    DedupExtends (resources, existingUrls)
      (addWebResources resources existingUrls newResources) := by
  refine dedupExtends_foldl _ (fun acc resource => ?_) newResources (resources, existingUrls)
  obtain ⟨rs, urls⟩ := acc
  dsimp only
  by_cases hc : urls.contains resource.url = true
  · rw [if_pos hc]
    exact dedupExtends_refl _
  · rw [if_neg hc]
    exact dedupExtends_push (rs, urls)
      { url := resource.url, title := resource.title,
        description := resource.description, resource_type := "web",
        source := "Tavily Web Search" } (Bool.not_eq_true _ ▸ hc)

/-- C2 (amended): `search_node` performs the append-dedup-by-key merge
itself.  Whenever it returns a delta, the emitted resource list extends the
prior `state.resources` at the tail only (on a url collision the existing
item is kept — first-write-wins), and if the prior urls were pairwise
distinct, so are the emitted urls: the delta never contains two entries
with equal identity key. -/
theorem search_node_append_dedup (p : SearchProviders) (s : AgentState)
    (delta : SearchDelta) (hrun : search_node p s = Except.ok delta)
    (hnodup : (s.resources.map (fun r => r.url)).Nodup) :
    (∃ t, delta.resources = s.resources ++ t) ∧
    (delta.resources.map (fun r => r.url)).Nodup := by
  unfold search_node at hrun
  cases hlast : s.messages.getLast? with
  | none =>
    rw [hlast] at hrun
    exact absurd hrun (by simp)
  | some aiMessage =>
    rw [hlast] at hrun
    simp only [bind, Except.bind] at hrun
    cases hsl : searchLoop p (deriveQueries aiMessage s.data_questions) 0 [] []
        (s.logs ++ (deriveQueries aiMessage s.data_questions).map
          (fun query => { message := s!"Search for {query}", done := false : LogEntry })) 0 with
    | error e =>
      rw [hsl] at hrun
      exact absurd hrun (by simp)
    | ok out =>
      rw [hsl] at hrun
      obtain ⟨search_results, tako_results, logs1, elapsed⟩ := out
      dsimp only at hrun
      rcases hpt : processTakoResults p.render s.resources
          (s.resources.map (fun r => r.url)) tako_results with ⟨res2, urls2⟩
      rw [hpt] at hrun
      dsimp only at hrun
      cases hem : p.extractModel search_results tako_results with
      | error e =>
        rw [hem] at hrun
        exact absurd hrun (by simp)
      | ok response =>
        rw [hem] at hrun
        dsimp only at hrun
        cases hh : response.tool_calls.head? with
        | none =>
          rw [hh] at hrun
          exact absurd hrun (by simp)
        | some extractCall =>
          rw [hh] at hrun
          dsimp only at hrun
          rcases haw : addWebResources res2 urls2 extractCall.args.resources
            with ⟨res3, urls3⟩
          rw [haw] at hrun
          dsimp only at hrun
          have hdelta := Except.ok.inj hrun
          have hchain : DedupExtends (s.resources, s.resources.map (fun r => r.url))
              (res3, urls3) := by
            have h1 := dedupExtends_processTakoResults p.render s.resources
              (s.resources.map (fun r => r.url)) tako_results
            rw [hpt] at h1
            have h2 := dedupExtends_addWebResources res2 urls2 extractCall.args.resources
            rw [haw] at h2
            exact dedupExtends_trans h1 h2
          obtain ⟨⟨t, ht⟩, hmap, hnd⟩ := hchain
          have hres : delta.resources = res3 := by rw [← hdelta]
          refine ⟨⟨t, by rw [hres]; exact ht⟩, ?_⟩
          rw [hres, ← hmap rfl]
          exact hnd hnodup

/-- A concrete Tako chart result used for witness runs. -/
def demoTakoResult : TakoSearchResult :=
  { url := "https://tako/q1", title := some "T1", description := some "D1",
    card_id := some "card-1" }

/-- Concrete, everywhere-succeeding providers for witness runs. -/
def demoProviders : SearchProviders :=
  { webSearch := fun _ => Except.ok { raw := "web" }
    webLat := fun _ => 5
    takoSearch := fun _ => Except.ok (some { results := [demoTakoResult] })
    takoLat := fun _ => 7
    render := fun _ => Except.ok (some "<iframe>")
    extractModel := fun _ _ => Except.ok
      { role := "assistant", content := "",
        tool_calls := [{ name := "ExtractResources",
                         args := { resources := [{ url := "https://web/1",
                                                   title := "W1",
                                                   description := "DW1" }] },
                         id := some "call_1" }] }
    dateNow := 0 }

/-- A concrete input state for witness runs: one assistant message without
tool calls, one data question. -/
def demoState : AgentState :=
  { messages := [{ role := "assistant", content := "", tool_calls := [] }],
    data_questions := ["q1"] }

/-- The delta `search_node demoProviders demoState` computes. -/
def demoDelta : SearchDelta :=
  { messages :=
      [{ role := "tool", content := "Performed search.",
         name := some "Search", tool_call_id := some "search_0" },
       { role := "assistant", content := "",
         tool_calls := [{ name := "ExtractResources",
                          args := { resources := [{ url := "https://web/1",
                                                    title := "W1",
                                                    description := "DW1" }] },
                          id := some "call_1" }] },
       { role := "tool", content := "Resources added.",
         name := some "ExtractResources", tool_call_id := some "call_1" }]
    resources :=
      [{ url := "https://tako/q1", title := "T1", description := "D1",
         content := some "D1", resource_type := "tako_chart",
         card_id := some "card-1", iframe_html := some "<iframe>",
         source := "Tako" },
       { url := "https://web/1", title := "W1", description := "DW1",
         resource_type := "web", source := "Tavily Web Search" }]
    logs := [] }

/-- Witness for `search_node_append_dedup` on a concrete run. -/
theorem search_node_append_dedup_witness :
    (∃ t, demoDelta.resources = demoState.resources ++ t) ∧
    (demoDelta.resources.map (fun r => r.url)).Nodup :=
  search_node_append_dedup demoProviders demoState demoDelta rfl (by decide)

/-! ## Render-failure degradation -/

/-- C9: if the dependent chart-render fetch fails for a chart returned by
the chart search (fresh url, truthy `card_id`), the chart is still
appended to the resources with its metadata — url, title, description —
and an empty rendered fragment (`iframe_html = ""`); the processing step
is total, so the failure neither aborts the retrieval node nor drops the
chart. -/
theorem render_failure_keeps_chart (render : String → Except String (Option String))
    (resources : List Resource) (existingUrls : List String)
    (result : TakoSearchResult) (card_id e : String)
    (hnew : existingUrls.contains result.url = false)
    (hcid : result.card_id = some card_id) (hne : card_id ≠ "")
    (hfail : render card_id = Except.error e) :
    processTakoResult render (resources, existingUrls) result =
      (resources ++
        [{ url := result.url, title := jsOr result.title "Tako Chart",
           description := jsOr result.description "",
           content := some (jsOr result.description ""),
           resource_type := "tako_chart", card_id := some card_id,
           iframe_html := some "", source := "Tako" }],
       existingUrls ++ [result.url]) := by
  have hifr : takoChartIframe render result = "" := by
    unfold takoChartIframe
    rw [hcid]
    simp [hne, hfail]
  unfold processTakoResult
  dsimp only
  rw [if_neg (by simpa using hnew)]
  unfold takoChartResource
  rw [hifr, hcid]

/-- Witness for `render_failure_keeps_chart` at a concrete chart result
and an always-failing render provider. -/
theorem render_failure_keeps_chart_witness :
    processTakoResult (fun _ => Except.error "render failed") ([], []) demoTakoResult =
      ([{ url := "https://tako/q1", title := jsOr (some "T1") "Tako Chart",
          description := jsOr (some "D1") "",
          content := some (jsOr (some "D1") ""),
          resource_type := "tako_chart", card_id := some "card-1",
          iframe_html := some "", source := "Tako" }],
       ["https://tako/q1"]) :=
  render_failure_keeps_chart (fun _ => Except.error "render failed") [] []
    demoTakoResult "card-1" "render failed" rfl rfl (by decide) rfl

/-! ## Query derivation -/

/-- C10: under the zero-or-one-tool-call contract, `search_node` derives
its query list from the last message's tool call when that call is named
`Search` (taking its `queries` argument and ignoring `data_questions`);
only when no `Search` tool call is present does it fall back to
`state.data_questions`; and when both are absent or empty the derived list
is empty, so the fan-out loop performs no provider call and returns its
accumulators (in particular the logs) unchanged — no `Search for …` entry
is produced. -/
theorem deriveQueries_precedence (msg : Message) (dq : List String)
    (hone : msg.tool_calls.length ≤ 1) :
    (∀ tc ∈ msg.tool_calls, tc.name = "Search" →
      deriveQueries msg dq = tc.args.queries) ∧
    ((∀ tc ∈ msg.tool_calls, tc.name ≠ "Search") → dq ≠ [] →
      deriveQueries msg dq = dq) ∧
    ((∀ tc ∈ msg.tool_calls, tc.name ≠ "Search") → dq = [] →
      deriveQueries msg dq = [] ∧
      ∀ (p : SearchProviders) (i : Nat) sr tr logs t,
        searchLoop p (deriveQueries msg dq) i sr tr logs t =
          Except.ok (sr, tr, logs, t)) := by
  cases hl : msg.tool_calls with
  | nil =>
    have hd : deriveQueries msg dq = if dq.length > 0 then dq else [] := by
      unfold deriveQueries
      rw [hl]
      rfl
    refine ⟨fun tc htc => absurd htc (List.not_mem_nil tc), fun _ hdq => ?_, fun _ hdq => ?_⟩
    · rw [hd, if_pos (List.length_pos_of_ne_nil hdq)]
    · subst hdq
      have hempty : deriveQueries msg [] = [] := by
        rw [hd]
        rfl
      refine ⟨hempty, ?_⟩
      intro p i sr tr logs t
      rw [hempty]
      rfl
  | cons tc0 rest =>
    obtain rfl : rest = [] := by
      rw [hl] at hone
      simpa using List.length_eq_zero.mp (Nat.le_zero.mp (Nat.le_of_succ_le_succ hone))
    have hd : deriveQueries msg dq =
        if (tc0.name == "Search") = true then tc0.args.queries
        else if dq.length > 0 then dq else [] := by
      unfold deriveQueries
      rw [hl]
      rfl
    refine ⟨fun tc htc hname => ?_, fun hall hdq => ?_, fun hall hdq => ?_⟩
    · obtain rfl : tc = tc0 := List.mem_singleton.mp htc
      rw [hd, if_pos (by simpa using hname)]
    · have hname : tc0.name ≠ "Search" := hall tc0 (List.mem_singleton_self tc0)
      rw [hd, if_neg (by simpa using hname), if_pos (List.length_pos_of_ne_nil hdq)]
    · have hname : tc0.name ≠ "Search" := hall tc0 (List.mem_singleton_self tc0)
      subst hdq
      have hempty : deriveQueries msg [] = [] := by
        rw [hd, if_neg (by simpa using hname)]
        rfl
      refine ⟨hempty, ?_⟩
      intro p i sr tr logs t
      rw [hempty]
      rfl

/-- A last message whose (single) tool call is a `Search` call. -/
def searchToolMessage : Message :=
  { role := "assistant", content := "",
    tool_calls := [{ name := "Search", args := { queries := ["s1", "s2"] } }] }

/-- Witness for `deriveQueries_precedence` at a concrete `Search` tool
call and non-empty `data_questions`. -/
theorem deriveQueries_precedence_witness :
    (∀ tc ∈ searchToolMessage.tool_calls, tc.name = "Search" →
      deriveQueries searchToolMessage ["d1"] = tc.args.queries) ∧
    ((∀ tc ∈ searchToolMessage.tool_calls, tc.name ≠ "Search") → ["d1"] ≠ ([] : List String) →
      deriveQueries searchToolMessage ["d1"] = ["d1"]) ∧
    ((∀ tc ∈ searchToolMessage.tool_calls, tc.name ≠ "Search") → ["d1"] = ([] : List String) →
      deriveQueries searchToolMessage ["d1"] = [] ∧
      ∀ (p : SearchProviders) (i : Nat) sr tr logs t,
        searchLoop p (deriveQueries searchToolMessage ["d1"]) i sr tr logs t =
          Except.ok (sr, tr, logs, t)) :=
  deriveQueries_precedence searchToolMessage ["d1"] (by decide)

/-! ## Provider-error propagation in the fan-out loop -/

/-- If every provider call for the queries before some query succeeds and
that query's web search rejects, the fan-out loop rejects with exactly that
error, whatever the accumulators: there is no try/catch around the
`Promise.all` pair. -/
theorem searchLoop_error_of_web_error (p : SearchProviders) (qs1 : List String)
    (q : String) (qs2 : List String) (e : String)
    (hok : ∀ q' ∈ qs1, (∃ w, p.webSearch q' = Except.ok w) ∧
      (∃ tk, p.takoSearch q' = Except.ok tk))
    (he : p.webSearch q = Except.error e) :
    ∀ (i : Nat) (sr : List WebSearchResponse) (tr : List TakoSearchResponse)
      (logs : List LogEntry) (t : Nat),
      searchLoop p (qs1 ++ q :: qs2) i sr tr logs t = Except.error e := by
  induction qs1 with
  | nil =>
    intro i sr tr logs t
    unfold searchLoop
    simp only [List.nil_append, bind, Except.bind, he]
  | cons a as ih =>
    intro i sr tr logs t
    obtain ⟨⟨w, hw⟩, ⟨tk, htk⟩⟩ := hok a (List.mem_cons_self a as)
    have ih' := ih (fun q' hq' => hok q' (List.mem_cons_of_mem a hq'))
    unfold searchLoop
    simp only [List.cons_append, bind, Except.bind, hw, htk]
    exact ih' _ _ _ _ _

/-- C5 counterexample inputs: providers that succeed everywhere except
that the web search for `q2` rejects. -/
def failQ2Providers : SearchProviders :=
  { demoProviders with
    webSearch := fun q =>
      if q == "q2" then Except.error "tavily: network error"
      else Except.ok { raw := "web" } }

/-- An input state carrying the three data questions `q1`, `q2`, `q3` and
a last assistant message without tool calls. -/
def threeQuestionState : AgentState :=
  { messages := [{ role := "assistant", content := "", tool_calls := [] }],
    data_questions := ["q1", "q2", "q3"] }

/-- C5 counterexample: with every provider call succeeding except the web
search for `q2`, the retrieval node does **not** catch the error at the
point of call — `search_node` itself rejects with the provider's error, so
no resource delta is emitted (no union of non-failing results), no log
entry about the failure is produced, `q2`'s log entry is never marked
done, and the error unwinds past the retrieval node. -/
theorem search_node_web_error_cex :
    search_node failQ2Providers threeQuestionState =
      Except.error "tavily: network error" := rfl

/-- C5 (amended): `search_node` wraps neither the web search nor the chart
search in a try/catch: whenever the web search for one derived query
rejects while all provider calls for the earlier queries succeed, the
rejection propagates out of the retrieval node as the node's own result —
no delta, no resources, no failure log entry, and no `done=true` flip for
the failing question. -/
theorem search_node_web_error_propagates (p : SearchProviders) (s : AgentState)
    (msg : Message) (qs1 : List String) (q : String) (qs2 : List String) (e : String)
    (hlast : s.messages.getLast? = some msg)
    (hq : deriveQueries msg s.data_questions = qs1 ++ q :: qs2)
    (hok : ∀ q' ∈ qs1, (∃ w, p.webSearch q' = Except.ok w) ∧
      (∃ tk, p.takoSearch q' = Except.ok tk))
    (he : p.webSearch q = Except.error e) :
    search_node p s = Except.error e := by
  unfold search_node
  rw [hlast]
  simp only [bind, Except.bind, hq,
    searchLoop_error_of_web_error p qs1 q qs2 e hok he]

/-- Witness for `search_node_web_error_propagates` at the concrete failing
run of the counterexample. -/
theorem search_node_web_error_propagates_witness :
    search_node failQ2Providers threeQuestionState =
      Except.error "tavily: network error" :=
  search_node_web_error_propagates failQ2Providers threeQuestionState
    { role := "assistant", content := "", tool_calls := [] }
    ["q1"] "q2" ["q3"] "tavily: network error" rfl rfl
    (fun q' hq' => by
      obtain rfl : q' = "q1" := List.mem_singleton.mp hq'
      exact ⟨⟨{ raw := "web" }, rfl⟩,
        ⟨some { results := [demoTakoResult] }, rfl⟩⟩)
    rfl

/-! ## Latency independence and question-order determinism -/

/-- The fan-out loop's outputs other than the elapsed settlement time —
responses, Tako results and log flips — do not depend on the providers'
latencies or on the starting clock: `Promise.all` delivers values
positionally, and the loop stores them by question index. -/
theorem searchLoop_latency_free (p q : SearchProviders)
    (hw : p.webSearch = q.webSearch) (ht : p.takoSearch = q.takoSearch) :
    ∀ (l : List String) (i : Nat) (sr : List WebSearchResponse)
      (tr : List TakoSearchResponse) (logs : List LogEntry) (t t' : Nat),
      (searchLoop p l i sr tr logs t).map (fun out => (out.1, out.2.1, out.2.2.1)) =
        (searchLoop q l i sr tr logs t').map (fun out => (out.1, out.2.1, out.2.2.1))
  | [], _, _, _, _, _, _ => rfl
  | query :: rest, i, sr, tr, logs, t, t' => by
    unfold searchLoop
    rw [← hw, ← ht]
    cases hweb : p.webSearch query with
    | error e => rfl
    | ok w =>
      cases htako : p.takoSearch query with
      | error e => rfl
      | ok tk =>
        dsimp only [bind, Except.bind]
        exact searchLoop_latency_free p q hw ht rest (i + 1) (sr ++ [w]) _
          (markDone logs i) _ _

/-- Whenever two provider bundles agree on every value-producing function
and differ only in latencies, `search_node` computes the same result. -/
theorem search_node_latency_free (p q : SearchProviders)
    (hw : p.webSearch = q.webSearch) (ht : p.takoSearch = q.takoSearch)
    (hr : p.render = q.render) (hx : p.extractModel = q.extractModel)
    (hd : p.dateNow = q.dateNow) (s : AgentState) :
    search_node p s = search_node q s := by
  unfold search_node
  cases hlast : s.messages.getLast? with
  | none => rfl
  | some aiMessage =>
    set qs := deriveQueries aiMessage s.data_questions with hqs
    set logs0 := s.logs ++
      qs.map (fun query => { message := s!"Search for {query}", done := false : LogEntry })
      with hlogs0
    have E := searchLoop_latency_free p q hw ht qs 0 [] [] logs0 0 0
    simp only [bind, Except.bind]
    cases hsl : searchLoop p qs 0 [] [] logs0 0 with
    | error e =>
      cases hsl' : searchLoop q qs 0 [] [] logs0 0 with
      | error e' =>
        rw [hsl, hsl'] at E
        obtain rfl : e = e' := by simpa [Except.map] using E
        rfl
      | ok out =>
        rw [hsl, hsl'] at E
        exact absurd E (by simp [Except.map])
    | ok out =>
      cases hsl' : searchLoop q qs 0 [] [] logs0 0 with
      | error e' =>
        rw [hsl, hsl'] at E
        exact absurd E (by simp [Except.map])
      | ok out' =>
        rw [hsl, hsl'] at E
        obtain ⟨sr, tr, lg, tt⟩ := out
        obtain ⟨sr', tr', lg', tt'⟩ := out'
        simp only [Except.map, Except.ok.injEq, Prod.mk.injEq] at E
        obtain ⟨h1, h2, h3⟩ := E
        subst h1
        subst h2
        subst h3
        dsimp only
        rw [hr, hx, hd]

/-- C4: the retrieval fan-out is deterministic in the arrival order of the
concurrent provider calls.  For providers that agree on all value
functions and differ only in latency, `search_node` returns identical
results on every state; for a fixed set of responses to `[q1, q2, q3]`,
the fan-out loop collects the web responses and the Tako responses
exactly in question order, only the elapsed settlement time depending on
the latencies; and the chart-processing phase emits resources by folding
over `q1`'s items, then `q2`'s, then `q3`'s, in that order. -/
theorem retrieval_order_determinism (p q : SearchProviders)
    (hw : p.webSearch = q.webSearch) (ht : p.takoSearch = q.takoSearch)
    (hr : p.render = q.render) (hx : p.extractModel = q.extractModel)
    (hd : p.dateNow = q.dateNow)
    (q1 q2 q3 : String) (w1 w2 w3 : WebSearchResponse)
    (t1 t2 t3 : TakoSearchResponse)
    (hw1 : p.webSearch q1 = Except.ok w1) (hw2 : p.webSearch q2 = Except.ok w2)
    (hw3 : p.webSearch q3 = Except.ok w3)
    (ht1 : p.takoSearch q1 = Except.ok (some t1))
    (ht2 : p.takoSearch q2 = Except.ok (some t2))
    (ht3 : p.takoSearch q3 = Except.ok (some t3)) :
    (∀ s, search_node p s = search_node q s) ∧
    (∀ logs, ∃ elapsed,
      searchLoop p [q1, q2, q3] 0 [] [] logs 0 =
        Except.ok ([w1, w2, w3], [t1, t2, t3],
          markDone (markDone (markDone logs 0) 1) 2, elapsed)) ∧
    (∀ (resources : List Resource) (existingUrls : List String),
      processTakoResults p.render resources existingUrls [t1, t2, t3] =
        (t1.results ++ t2.results ++ t3.results).foldl
          (processTakoResult p.render) (resources, existingUrls)) := by
  refine ⟨fun s => search_node_latency_free p q hw ht hr hx hd s,
    fun logs => ?_, fun resources existingUrls => ?_⟩
  · refine ⟨0 + max (p.webLat q1) (p.takoLat q1) + max (p.webLat q2) (p.takoLat q2)
      + max (p.webLat q3) (p.takoLat q3), ?_⟩
    simp only [searchLoop, bind, Except.bind, hw1, ht1, hw2, ht2, hw3, ht3,
      List.nil_append, List.cons_append, List.append_nil]
  · simp [processTakoResults, List.foldl_append]

/-- The demo providers with permuted latencies: the web call is now the
slow one.  All value-producing functions are shared with
`demoProviders`. -/
def slowWebProviders : SearchProviders :=
  { demoProviders with webLat := fun _ => 100, takoLat := fun _ => 1 }

/-- Witness for `retrieval_order_determinism` at the concrete providers
`demoProviders` and `slowWebProviders`, which differ only in latency. -/
theorem retrieval_order_determinism_witness :
    (∀ s, search_node demoProviders s = search_node slowWebProviders s) ∧
    (∀ logs, ∃ elapsed,
      searchLoop demoProviders ["q1", "q2", "q3"] 0 [] [] logs 0 =
        Except.ok ([{ raw := "web" }, { raw := "web" }, { raw := "web" }],
          [{ results := [demoTakoResult] }, { results := [demoTakoResult] },
            { results := [demoTakoResult] }],
          markDone (markDone (markDone logs 0) 1) 2, elapsed)) ∧
    (∀ (resources : List Resource) (existingUrls : List String),
      processTakoResults demoProviders.render resources existingUrls
          [{ results := [demoTakoResult] }, { results := [demoTakoResult] },
            { results := [demoTakoResult] }] =
        (({ results := [demoTakoResult] } : TakoSearchResponse).results ++
          ({ results := [demoTakoResult] } : TakoSearchResponse).results ++
          ({ results := [demoTakoResult] } : TakoSearchResponse).results).foldl
          (processTakoResult demoProviders.render) (resources, existingUrls)) :=
  retrieval_order_determinism demoProviders slowWebProviders rfl rfl rfl rfl rfl
    "q1" "q2" "q3" { raw := "web" } { raw := "web" } { raw := "web" }
    { results := [demoTakoResult] } { results := [demoTakoResult] }
    { results := [demoTakoResult] } rfl rfl rfl rfl rfl rfl

/-! ## Absence of a step budget in the graph loop -/

/-- An assistant-node update that signals retrieval: its appended messages
end in one carrying a `GenerateDataQuestions` tool call, and it replaces
`data_questions` with a non-empty list. -/
def SignalsDataQuestions (d : StateDelta) : Prop :=
  (∃ ms m, d.messages = some ms ∧ ms.getLast? = some m ∧
    ∃ tc ∈ m.tool_calls, tc.name = "GenerateDataQuestions") ∧
  ∃ qs, d.data_questions = some qs ∧ qs ≠ []

/-- Merging a retrieval-signalling update makes the router continue. -/
theorem shouldSearch_applyDelta_of_signals (s : TakoResearchState) (d : StateDelta)
    (h : SignalsDataQuestions d) :
    shouldSearch (applyDelta s d) = "search" := by
  obtain ⟨⟨ms, m, hms, hlast, tc, htc, hname⟩, qs, hqs, hqsne⟩ := h
  apply (shouldSearch_eq_search_iff _).mpr
  have hmsne : ms ≠ [] := by
    intro hnil
    rw [hnil] at hlast
    exact absurd hlast (by simp)
  constructor
  · refine ⟨m, ?_, tc, htc, hname⟩
    show (messagesReducer s.messages d.messages).getLast? = some m
    rw [hms]
    show (s.messages ++ ms).getLast? = some m
    rw [List.getLast?_append_of_ne_nil _ hmsne]
    exact hlast
  · show dataQuestionsReducer s.data_questions d.data_questions ≠ []
    rw [hqs]
    exact hqsne

/-- C6 (amended): the repo's graph configures no step counter and has no
`Halted`-with-truncation transition.  For any assistant behaviour whose
every update signals retrieval (a `GenerateDataQuestions` tool call with a
non-empty question list) and any retrieval behaviour, the run never
reaches the end node, whatever the initial state and however many
supersteps are taken: bounding the loop is left entirely to the external
runtime. -/
theorem always_generate_never_reaches_end (cfg : GraphConfig)
    (h : ∀ s, SignalsDataQuestions (cfg.chatDelta s))
    (s0 : TakoResearchState) (n : Nat) :
    (runGraph cfg s0 n).1 ≠ GraphNode.finished := by
  induction n with
  | zero => simp [runGraph]
  | succ n ih =>
    rw [runGraph]
    rcases hr : runGraph cfg s0 n with ⟨node, s⟩
    rw [hr] at ih
    cases node with
    | chat =>
      dsimp [graphStep]
      unfold routeTarget
      rw [if_pos (shouldSearch_applyDelta_of_signals s (cfg.chatDelta s) (h s))]
      simp
    | search => simp [graphStep]
    | finished => exact absurd rfl ih

/-- The tool call the mock always-generating assistant emits. -/
def alwaysGenToolCall : ToolCall :=
  { name := "GenerateDataQuestions", args := { data_questions := ["q"] } }

/-- The assistant message of the mock always-generating assistant. -/
def alwaysGenMessage : Message :=
  { role := "assistant", content := "", tool_calls := [alwaysGenToolCall] }

/-- The update the mock always-generating assistant returns on every turn
(mirroring `chat_node` on a model that always calls
`GenerateDataQuestions` with one question). -/
def alwaysGenDelta : StateDelta :=
  { messages := some [alwaysGenMessage], data_questions := some ["q"],
    logs := some ["Generated 1 data questions"] }

/-- The graph driven by the mock always-generating assistant and a
retrieval node contributing an empty update. -/
def alwaysGenConfig : GraphConfig :=
  { chatDelta := fun _ => alwaysGenDelta, searchDelta := fun _ => {} }

/-- C6 counterexample: with an assistant that always calls
`GenerateDataQuestions` with one question, after 25 supersteps (the
external runtime's default recursion budget) the run is still inside the
loop — at the `search` node, not in any terminal `Halted` state — and its
log contains only the assistant's `Generated 1 data questions` entries, no
entry noting truncation: the code has no step counter. -/
theorem step_budget_truncation_cex :
    (runGraph alwaysGenConfig {} 25).1 = GraphNode.search ∧
    (runGraph alwaysGenConfig {} 25).2.logs =
      List.replicate 13 "Generated 1 data questions" := by
  constructor
  · decide
  · decide

/-- Witness for `always_generate_never_reaches_end` at the concrete mock
configuration. -/
theorem always_generate_never_reaches_end_witness :
    (runGraph alwaysGenConfig {} 8).1 ≠ GraphNode.finished :=
  always_generate_never_reaches_end alwaysGenConfig
    (fun _ => ⟨⟨[alwaysGenMessage], alwaysGenMessage, rfl, rfl,
      alwaysGenToolCall, by decide, rfl⟩, ["q"], rfl, by decide⟩) {} 8

end Tako

